import Mathlib

/-!
Verification of the LedgerFlow Tauri bridge (`src-tauri/src/main.rs`, the
inline-argument variant, and `src-tauri 2/src/main.rs`, the file-relay
variant) against its natural-language specification.

Modelling conventions:
* Rust `f64` fields are modelled as `ℚ`; the bridge only compares these
  values, it never performs float arithmetic on them.
* Rust `i32` fields are modelled as `Int`; the bridge only compares them.
* JSON values are modelled by the inductive `Json`; the behaviour of the
  serde-derived deserializers is given by explicit `decode…` functions.
* The external world (filesystem, child process) is an explicit environment
  record passed to the embedded `run_simulation` functions.  The engine's
  standard output is carried both as raw text and as the outcome of parsing
  that text as JSON, since the code uses both.
-/

/-- `SimulationConfig` from both `main.rs` variants (identical field lists). -/
structure SimulationConfig where
  revenue_target : ℚ
  start_date : String
  end_date : String
  invoice_type : String
  min_items : Int
  max_items : Int
  min_invoice_amount : ℚ
  max_invoice_amount : ℚ
  item_filter_mode : String
  selected_items : List String
  name_type : String
  realism_mode : String
  seed : Option Int
  invoice_count_mode : Option String
  manual_invoice_count : Option Int
  reality_buffer : Option ℚ
  distribution_mode : Option String
  customer_repeat_rate : Option ℚ
deriving Repr, DecidableEq

/-- `CatalogItem` from both `main.rs` variants. -/
structure CatalogItem where
  sku : String
  name : String
  price : ℚ
  gst_percent : Option ℚ
  vat_percent : Option ℚ
  category : Option String
deriving Repr, DecidableEq

/-- The five inline request checks at the top of `run_simulation` in the
inline-argument variant (`src-tauri/src/main.rs`, lines 103-117), factored
out as the specification's `validate`.  A pure function of the request. -/
def validate (config : SimulationConfig) : Except String Unit :=
  if config.revenue_target ≤ 0 then
    Except.error "Revenue target must be positive"
  else if config.min_invoice_amount ≤ 0 ∨ config.max_invoice_amount ≤ 0 then
    Except.error "Invoice amounts must be positive"
  else if config.min_items ≤ 0 ∨ config.max_items ≤ 0 then
    Except.error "Item counts must be positive"
  else if config.min_invoice_amount > config.max_invoice_amount then
    Except.error "Minimum invoice amount cannot exceed maximum"
  else if config.min_items > config.max_items then
    Except.error "Minimum items cannot exceed maximum"
  else
    Except.ok ()

/-- C1: validation performs its checks in exactly the order
revenue_target > 0; min/max invoice amount > 0; min/max items > 0;
min_invoice_amount ≤ max_invoice_amount; min_items ≤ max_items, stopping at
the first failure, and each failing check yields its own distinct
human-readable message (the six mutually exclusive characterisations below);
`validate` is a pure function, so there are no side effects. -/
theorem validate_checks_in_order (c : SimulationConfig) :
    (validate c = Except.error "Revenue target must be positive" ↔
      c.revenue_target ≤ 0) ∧
    (validate c = Except.error "Invoice amounts must be positive" ↔
      ¬ c.revenue_target ≤ 0 ∧
        (c.min_invoice_amount ≤ 0 ∨ c.max_invoice_amount ≤ 0)) ∧
    (validate c = Except.error "Item counts must be positive" ↔
      ¬ c.revenue_target ≤ 0 ∧
        ¬ (c.min_invoice_amount ≤ 0 ∨ c.max_invoice_amount ≤ 0) ∧
        (c.min_items ≤ 0 ∨ c.max_items ≤ 0)) ∧
    (validate c = Except.error "Minimum invoice amount cannot exceed maximum" ↔
      ¬ c.revenue_target ≤ 0 ∧
        ¬ (c.min_invoice_amount ≤ 0 ∨ c.max_invoice_amount ≤ 0) ∧
        ¬ (c.min_items ≤ 0 ∨ c.max_items ≤ 0) ∧
        c.min_invoice_amount > c.max_invoice_amount) ∧
    (validate c = Except.error "Minimum items cannot exceed maximum" ↔
      ¬ c.revenue_target ≤ 0 ∧
        ¬ (c.min_invoice_amount ≤ 0 ∨ c.max_invoice_amount ≤ 0) ∧
        ¬ (c.min_items ≤ 0 ∨ c.max_items ≤ 0) ∧
        ¬ c.min_invoice_amount > c.max_invoice_amount ∧
        c.min_items > c.max_items) ∧
    (validate c = Except.ok () ↔
      ¬ c.revenue_target ≤ 0 ∧
        ¬ (c.min_invoice_amount ≤ 0 ∨ c.max_invoice_amount ≤ 0) ∧
        ¬ (c.min_items ≤ 0 ∨ c.max_items ≤ 0) ∧
        ¬ c.min_invoice_amount > c.max_invoice_amount ∧
        ¬ c.min_items > c.max_items) := by
  unfold validate
  split_ifs with h1 h2 h3 h4 h5 <;> simp_all

/-- JSON values, the shape `serde_json` operates on. -/
inductive Json where
  | null : Json
  | bool : Bool → Json
  | num : ℚ → Json
  | str : String → Json
  | arr : List Json → Json
  | obj : List (String × Json) → Json

/-- serde: deserialize a JSON value as a Rust `String`. -/
def decodeString : Json → Except String String
  | Json.str s => Except.ok s
  | _ => Except.error "invalid type: expected a string"

/-- serde: deserialize a JSON value as a Rust `f64` (any JSON number). -/
def decodeF64 : Json → Except String ℚ
  | Json.num q => Except.ok q
  | _ => Except.error "invalid type: expected a number"

/-- serde: deserialize a JSON value as a Rust `i32` (an integral JSON number
within the `i32` range). -/
def decodeI32 : Json → Except String Int
  | Json.num q =>
      if q.den = 1 ∧ -(2 ^ 31) ≤ q.num ∧ q.num < 2 ^ 31 then Except.ok q.num
      else Except.error "invalid value: expected i32"
  | _ => Except.error "invalid type: expected i32"

/-- serde: a plain (required) struct field; absence is an error. -/
def reqField (fields : List (String × Json)) (k : String)
    (d : Json → Except String α) : Except String α :=
  match fields.lookup k with
  | some v => d v
  | none => Except.error ("missing field " ++ k)

/-- serde: a field carrying `#[serde(default)]`; absence yields the default. -/
def defField (fields : List (String × Json)) (k : String)
    (d : Json → Except String α) (dflt : α) : Except String α :=
  match fields.lookup k with
  | some v => d v
  | none => Except.ok dflt

/-- serde: an `Option<T>` field; absence or `null` yields `none`. -/
def optField (fields : List (String × Json)) (k : String)
    (d : Json → Except String α) : Except String (Option α) :=
  match fields.lookup k with
  | some Json.null => Except.ok none
  | some v => (d v).map some
  | none => Except.ok none

/-- serde: deserialize a JSON array elementwise (`Vec<T>`). -/
def decodeArr (d : Json → Except String α) : Json → Except String (List α)
  | Json.arr xs => xs.mapM d
  | _ => Except.error "invalid type: expected a sequence"

/-- `InvoiceItem` of the inline-argument variant
(`src-tauri/src/main.rs`, lines 57-85): it keeps BOTH dialects' alias
fields (`name`/`item`, `quantity`/`qty`), each with `#[serde(default)]`,
plus required `rate`/`amount` and optional `sku`/`tax`/`total`. -/
structure InvoiceItem where
  name : String
  item : String
  quantity : Int
  qty : Int
  rate : ℚ
  amount : ℚ
  sku : Option String
  tax : Option ℚ
  total : Option ℚ
deriving Repr, DecidableEq

/-- The serde-derived deserializer for `InvoiceItem` (inline variant). -/
def decodeInvoiceItem : Json → Except String InvoiceItem
  | Json.obj fields => do
      let name ← defField fields "name" decodeString ""
      let item ← defField fields "item" decodeString ""
      let quantity ← defField fields "quantity" decodeI32 0
      let qty ← defField fields "qty" decodeI32 0
      let rate ← reqField fields "rate" decodeF64
      let amount ← reqField fields "amount" decodeF64
      let sku ← optField fields "sku" decodeString
      let tax ← optField fields "tax" decodeF64
      let total ← optField fields "total" decodeF64
      Except.ok { name, item, quantity, qty, rate, amount, sku, tax, total }
  | _ => Except.error "invalid type: expected struct InvoiceItem"

/-- `Invoice` of the inline-argument variant (`src-tauri/src/main.rs`,
lines 37-55); `customer` is an arbitrary `serde_json::Value`. -/
structure Invoice where
  invoice_type : String
  invoice_number : String
  date : String
  customer : Json
  items : List InvoiceItem
  subtotal : ℚ
  total : ℚ
  payment_terms : Option String
  template_applied : Option String

/-- The serde-derived deserializer for `Invoice` (inline variant).  All
fields except the two trailing options are required. -/
def decodeInvoice : Json → Except String Invoice
  | Json.obj fields => do
      let invoice_type ← reqField fields "invoice_type" decodeString
      let invoice_number ← reqField fields "invoice_number" decodeString
      let date ← reqField fields "date" decodeString
      let customer ← reqField fields "customer" Except.ok
      let items ← reqField fields "items" (decodeArr decodeInvoiceItem)
      let subtotal ← reqField fields "subtotal" decodeF64
      let total ← reqField fields "total" decodeF64
      let payment_terms ← optField fields "payment_terms" decodeString
      let template_applied ← optField fields "template_applied" decodeString
      Except.ok { invoice_type, invoice_number, date, customer, items,
                  subtotal, total, payment_terms, template_applied }
  | _ => Except.error "invalid type: expected struct Invoice"

/-- `SimulationResult` from `src-tauri/src/main.rs`, lines 30-35. -/
structure SimulationResult where
  invoices : List Invoice
  status : String
  error : Option String

/-- The serde-derived deserializer for `SimulationResult` (inline variant). -/
def decodeSimulationResult : Json → Except String SimulationResult
  | Json.obj fields => do
      let invoices ← reqField fields "invoices" (decodeArr decodeInvoice)
      let status ← reqField fields "status" decodeString
      let error ← optField fields "error" decodeString
      Except.ok { invoices, status, error }
  | _ => Except.error "invalid type: expected struct SimulationResult"

/-- What one run of the child process produced (inline variant): exit
status, raw standard output, the outcome of `serde_json::from_str` on that
output, and the captured standard error. -/
structure EngineOutcome where
  exitSuccess : Bool
  stdoutRaw : String
  stdoutParse : Except String Json
  stderr : String

/-- Environment of one inline-variant invocation: whether
`../backend/src/engine.py` exists, and what `Command::output()` yields if
the launch is attempted (`Except.error` models a spawn failure). -/
structure EnvV1 where
  scriptExists : Bool
  launch : Except String EngineOutcome

/-- Result of an inline-variant run together with its observable trace:
`launched` records whether `Command::output()` was reached. -/
structure RunV1 where
  result : Except String SimulationResult
  launched : Bool

/-- `run_simulation` of the inline-argument variant
(`src-tauri/src/main.rs`, lines 102-181): validate, check the script
exists, launch `python3` with the JSON payloads as arguments, reject a
non-zero exit with the captured stderr, parse stdout, and turn an embedded
`error` message into the operation's error.  Serialization of
`SimulationConfig`/`CatalogItem` to JSON text cannot fail for these field
types, so the two `serde_json::to_string` steps are not a failure point. -/
def run_simulation (config : SimulationConfig) (catalog : List CatalogItem)
    (env : EnvV1) : RunV1 :=
  let _ := catalog
  match validate config with
  | Except.error e => ⟨Except.error e, false⟩
  | Except.ok _ =>
    if env.scriptExists = false then
      ⟨Except.error "Python engine not found at: \"../backend/src/engine.py\"",
        false⟩
    else
      match env.launch with
      | Except.error e =>
          ⟨Except.error ("Failed to execute Python engine: " ++ e), true⟩
      | Except.ok out =>
        if out.exitSuccess = false then
          ⟨Except.error ("Python engine error: " ++ out.stderr), true⟩
        else
          match out.stdoutParse with
          | Except.error e =>
              ⟨Except.error ("Failed to parse engine output: " ++ e ++
                ". Raw: " ++ out.stdoutRaw), true⟩
          | Except.ok j =>
            match decodeSimulationResult j with
            | Except.error e =>
                ⟨Except.error ("Failed to parse engine output: " ++ e ++
                  ". Raw: " ++ out.stdoutRaw), true⟩
            | Except.ok result =>
              match result.error with
              | some err => ⟨Except.error err, true⟩
              | none => ⟨Except.ok result, true⟩

/-- `InvoiceItem` of the file-relay variant (`src-tauri 2/src/main.rs`,
lines 48-55): single-dialect, every field required. -/
structure InvoiceItemV2 where
  sku : String
  name : String
  qty : Int
  rate : ℚ
  tax : ℚ
  total : ℚ
deriving Repr, DecidableEq

/-- The serde-derived deserializer for the file-relay `InvoiceItem`. -/
def decodeInvoiceItemV2 : Json → Except String InvoiceItemV2
  | Json.obj fields => do
      let sku ← reqField fields "sku" decodeString
      let name ← reqField fields "name" decodeString
      let qty ← reqField fields "qty" decodeI32
      let rate ← reqField fields "rate" decodeF64
      let tax ← reqField fields "tax" decodeF64
      let total ← reqField fields "total" decodeF64
      Except.ok { sku, name, qty, rate, tax, total }
  | _ => Except.error "invalid type: expected struct InvoiceItem"

/-- `Invoice` of the file-relay variant (`src-tauri 2/src/main.rs`,
lines 38-46). -/
structure InvoiceV2 where
  invoice_id : String
  date : String
  customer_name : String
  items : List InvoiceItemV2
  tax_breakdown : Json
  grand_total : ℚ

/-- The serde-derived deserializer for the file-relay `Invoice`. -/
def decodeInvoiceV2 : Json → Except String InvoiceV2
  | Json.obj fields => do
      let invoice_id ← reqField fields "invoice_id" decodeString
      let date ← reqField fields "date" decodeString
      let customer_name ← reqField fields "customer_name" decodeString
      let items ← reqField fields "items" (decodeArr decodeInvoiceItemV2)
      let tax_breakdown ← reqField fields "tax_breakdown" Except.ok
      let grand_total ← reqField fields "grand_total" decodeF64
      Except.ok { invoice_id, date, customer_name, items, tax_breakdown,
                  grand_total }
  | _ => Except.error "invalid type: expected struct Invoice"

/-- `SimulationResult` of the file-relay variant (same top-level shape). -/
structure SimulationResultV2 where
  invoices : List InvoiceV2
  status : String
  error : Option String

/-- The serde-derived deserializer for the file-relay `SimulationResult`. -/
def decodeSimulationResultV2 : Json → Except String SimulationResultV2
  | Json.obj fields => do
      let invoices ← reqField fields "invoices" (decodeArr decodeInvoiceV2)
      let status ← reqField fields "status" decodeString
      let error ← optField fields "error" decodeString
      Except.ok { invoices, status, error }
  | _ => Except.error "invalid type: expected struct SimulationResult"

/-- Child-process outcome for the file-relay variant (stdout is unused by
that code path; the reply travels through the output file). -/
structure OutcomeV2 where
  exitSuccess : Bool
  stderr : String

/-- Environment of one file-relay invocation: the temp directory returned
by `std::env::temp_dir()`, the outcomes of the two `fs::write` calls, of
`Command::output()`, of `fs::read_to_string(&output_path)`, and of parsing
the text so read as JSON. -/
structure EnvV2 where
  tempDir : String
  configWrite : Except String Unit
  catalogWrite : Except String Unit
  launch : Except String OutcomeV2
  outputRead : Except String String
  outputParse : Except String Json

/-- `temp_dir.join("ledgerflow_config.json")` — a fixed well-known name. -/
def configPath (env : EnvV2) : String :=
  env.tempDir ++ "/ledgerflow_config.json"

/-- `temp_dir.join("ledgerflow_catalog.json")` — a fixed well-known name. -/
def catalogPath (env : EnvV2) : String :=
  env.tempDir ++ "/ledgerflow_catalog.json"

/-- `temp_dir.join("ledgerflow_output.json")` — a fixed well-known name. -/
def outputPath (env : EnvV2) : String :=
  env.tempDir ++ "/ledgerflow_output.json"

/-- Observable trace of one file-relay invocation: which temp artifacts
were written, whether the child process launch was reached, and which temp
artifacts were removed before returning. -/
structure TraceV2 where
  wroteConfig : Bool
  wroteCatalog : Bool
  launched : Bool
  removedConfig : Bool
  removedCatalog : Bool
  removedOutput : Bool
deriving Repr, DecidableEq

/-- Result of a file-relay run together with its observable trace. -/
structure RunV2 where
  result : Except String SimulationResultV2
  trace : TraceV2

/-- `run_simulation` of the file-relay variant (`src-tauri 2/src/main.rs`,
lines 68-123): serialize, write the two fixed-name temp files, launch
`python` with the three fixed paths — with no validation of the request and
no check that the script exists — reject a non-zero exit with the captured
stderr, read and parse the output file, and remove the three temp files
(only) on the all-success path before returning the decoded result as-is. -/
def run_simulation_filerelay (config : SimulationConfig)
    (catalog : List CatalogItem) (env : EnvV2) : RunV2 :=
  let _ := config
  let _ := catalog
  match env.configWrite with
  | Except.error e =>
      ⟨Except.error ("Failed to write config file: " ++ e),
        ⟨false, false, false, false, false, false⟩⟩
  | Except.ok _ =>
  match env.catalogWrite with
  | Except.error e =>
      ⟨Except.error ("Failed to write catalog file: " ++ e),
        ⟨true, false, false, false, false, false⟩⟩
  | Except.ok _ =>
  match env.launch with
  | Except.error e =>
      ⟨Except.error ("Failed to execute Python script: " ++ e),
        ⟨true, true, true, false, false, false⟩⟩
  | Except.ok out =>
  if out.exitSuccess = false then
    ⟨Except.error ("Python script failed: " ++ out.stderr),
      ⟨true, true, true, false, false, false⟩⟩
  else
  match env.outputRead with
  | Except.error e =>
      ⟨Except.error ("Failed to read output file: " ++ e),
        ⟨true, true, true, false, false, false⟩⟩
  | Except.ok _raw =>
  match env.outputParse with
  | Except.error e =>
      ⟨Except.error ("Failed to parse output JSON: " ++ e),
        ⟨true, true, true, false, false, false⟩⟩
  | Except.ok j =>
  match decodeSimulationResultV2 j with
  | Except.error e =>
      ⟨Except.error ("Failed to parse output JSON: " ++ e),
        ⟨true, true, true, false, false, false⟩⟩
  | Except.ok result =>
      ⟨Except.ok result, ⟨true, true, true, true, true, true⟩⟩

/-- A request passing all five validation checks (the spec's §8 example). -/
def goodConfig : SimulationConfig :=
  { revenue_target := 10000, start_date := "2024-01-01",
    end_date := "2024-12-31", invoice_type := "gst", min_items := 1,
    max_items := 5, min_invoice_amount := 50, max_invoice_amount := 500,
    item_filter_mode := "all", selected_items := [], name_type := "indian",
    realism_mode := "standard", seed := none, invoice_count_mode := none,
    manual_invoice_count := none, reality_buffer := none,
    distribution_mode := none, customer_repeat_rate := none }

/-- A request violating `min_items ≤ max_items`. -/
def badItemsConfig : SimulationConfig :=
  { goodConfig with min_items := 5, max_items := 1 }

/-- A minimal engine reply that decodes successfully with status
`"success"`. -/
def successReplyV2 : Json :=
  Json.obj [("invoices", Json.arr []), ("status", Json.str "success")]

/-- A file-relay environment in which every filesystem and process step
succeeds and the engine reports success. -/
def envEngineRuns : EnvV2 :=
  { tempDir := "/tmp", configWrite := Except.ok (),
    catalogWrite := Except.ok (), launch := Except.ok ⟨true, ""⟩,
    outputRead := Except.ok "raw", outputParse := Except.ok successReplyV2 }

/-- C2: refuted on the file-relay variant — for the request with
`min_items = 5 > 1 = max_items`, `run_simulation` of
`src-tauri 2/src/main.rs` performs no validation at all: it launches the
engine process and returns the engine's reply instead of the matching
validation error. -/
theorem filerelay_launches_engine_for_invalid_request :
    badItemsConfig.min_items > badItemsConfig.max_items ∧
    (run_simulation_filerelay badItemsConfig [] envEngineRuns).trace.launched
      = true ∧
    (run_simulation_filerelay badItemsConfig [] envEngineRuns).result =
      Except.ok ⟨[], "success", none⟩ :=
  ⟨by decide, rfl, rfl⟩

/-- C3: in both variants a non-zero exit status of the engine process is
always reported as an error, whatever the engine wrote to standard output
(the inline variant's `out.stdoutRaw`/`out.stdoutParse` are arbitrary here,
including well-formed JSON), and the error message carries the captured
standard-error stream verbatim as its suffix. -/
theorem nonzero_exit_is_error (c : SimulationConfig) (cat : List CatalogItem)
    (env : EnvV1) (out : EngineOutcome) (env2 : EnvV2) (out2 : OutcomeV2)
    (h1 : validate c = Except.ok ()) (h2 : env.scriptExists = true)
    (h3 : env.launch = Except.ok out) (h4 : out.exitSuccess = false)
    (g1 : env2.configWrite = Except.ok ())
    (g2 : env2.catalogWrite = Except.ok ())
    (g3 : env2.launch = Except.ok out2) (g4 : out2.exitSuccess = false) :
    (run_simulation c cat env).result =
      Except.error ("Python engine error: " ++ out.stderr) ∧
    (run_simulation_filerelay c cat env2).result =
      Except.error ("Python script failed: " ++ out2.stderr) := by
  unfold run_simulation run_simulation_filerelay
  simp [h1, h2, h3, h4, g1, g2, g3, g4]

/-- The spec's §8 example outcome: the engine exits non-zero with stderr
`catalog empty`, while stdout even holds well-formed JSON. -/
def outCatalogEmpty : EngineOutcome :=
  ⟨false, "raw stdout", Except.ok successReplyV2, "catalog empty"⟩

/-- Inline-variant environment for the non-zero-exit example. -/
def envV1fail : EnvV1 := ⟨true, Except.ok outCatalogEmpty⟩

/-- File-relay child-process outcome for the non-zero-exit example. -/
def outV2fail : OutcomeV2 := ⟨false, "catalog empty"⟩

/-- File-relay environment for the non-zero-exit example. -/
def envV2fail : EnvV2 :=
  ⟨"/tmp", Except.ok (), Except.ok (), Except.ok outV2fail,
    Except.error "not written", Except.error "not parsed"⟩

/-- Witness for `nonzero_exit_is_error` at the spec's §8 example. -/
theorem nonzero_exit_is_error_witness :
    (run_simulation goodConfig [] envV1fail).result =
      Except.error ("Python engine error: " ++ "catalog empty") ∧
    (run_simulation_filerelay goodConfig [] envV2fail).result =
      Except.error ("Python script failed: " ++ "catalog empty") :=
  nonzero_exit_is_error goodConfig [] envV1fail outCatalogEmpty envV2fail
    outV2fail rfl rfl rfl rfl rfl rfl rfl rfl

/-- A file-relay environment in which the engine script is absent: the
spawn of `python` itself succeeds and python exits non-zero complaining
about the missing file; reading the never-written output file fails. -/
def envMissingScript : EnvV2 :=
  ⟨"/tmp", Except.ok (), Except.ok (),
    Except.ok ⟨false,
      "python: cannot open file ../backend/src/engine.py: No such file or directory"⟩,
    Except.error "No such file or directory", Except.error "not parsed"⟩

/-- C4: refuted on the file-relay variant — `run_simulation` of
`src-tauri 2/src/main.rs` never checks that the engine script exists: with
the script absent it still writes both temp artifacts, launches `python`,
and surfaces the interpreter's generic failure instead of a fail-fast
engine-not-found error; the artifacts are left behind. -/
theorem filerelay_missing_script_not_failfast :
    (run_simulation_filerelay goodConfig [] envMissingScript).trace =
      ⟨true, true, true, false, false, false⟩ ∧
    (run_simulation_filerelay goodConfig [] envMissingScript).result =
      Except.error ("Python script failed: " ++
        "python: cannot open file ../backend/src/engine.py: No such file or directory") :=
  ⟨rfl, rfl⟩

/-- An engine reply whose top-level status says `"failure"` but which
carries no error message. -/
def failureStatusReply : Json :=
  Json.obj [("invoices", Json.arr []), ("status", Json.str "failure")]

/-- Inline-variant environment: successful run, reply `failureStatusReply`. -/
def envFailureStatus : EnvV1 :=
  ⟨true, Except.ok ⟨true, "raw", Except.ok failureStatusReply, ""⟩⟩

/-- An engine reply with invoice data absent, status `"failed"`, and an
embedded non-empty error message. -/
def errorReply : Json :=
  Json.obj [("invoices", Json.arr []), ("status", Json.str "failed"),
            ("error", Json.str "engine boom")]

/-- Child-process outcome delivering `errorReply` on a zero exit status. -/
def outErrorReply : EngineOutcome :=
  ⟨true, "raw", Except.ok errorReply, ""⟩

/-- Inline-variant environment delivering `errorReply`. -/
def envErrorReply : EnvV1 := ⟨true, Except.ok outErrorReply⟩

/-- File-relay environment in which everything succeeds and the output
file holds `errorReply`. -/
def envV2ErrorReply : EnvV2 :=
  ⟨"/tmp", Except.ok (), Except.ok (), Except.ok ⟨true, ""⟩,
    Except.ok "raw", Except.ok errorReply⟩

/-- C5 counterexample, refuting the claim on both variants: the inline
variant never examines the reply's `status` field, so a decoded reply with
status `"failure"` and no error message is returned as the operation's
success value; and the file-relay variant examines neither field, so even
a decoded reply carrying the non-empty error message `"engine boom"` is
returned as the operation's success value, not as an error. -/
theorem status_failure_returned_as_success :
    decodeSimulationResult failureStatusReply =
      Except.ok ⟨[], "failure", none⟩ ∧
    (run_simulation goodConfig [] envFailureStatus).result =
      Except.ok ⟨[], "failure", none⟩ ∧
    decodeSimulationResultV2 errorReply =
      Except.ok ⟨[], "failed", some "engine boom"⟩ ∧
    (run_simulation_filerelay goodConfig [] envV2ErrorReply).result =
      Except.ok ⟨[], "failed", some "engine boom"⟩ :=
  ⟨rfl, rfl, rfl, rfl⟩

/-- C5 (amended): in the inline variant, whenever the decoded reply
carries an error message (`error = Some msg`), `run_simulation` returns
exactly that message as the operation's error, verbatim, regardless of the
reply's status or of any invoice data accompanying it — but the status
field itself is never examined; in the file-relay variant neither the
status nor the error field is examined, and the decoded reply is returned
unchanged as the success value whatever error message it embeds. -/
theorem embedded_error_message_surfaced (c : SimulationConfig)
    (cat : List CatalogItem) (env : EnvV1) (out : EngineOutcome) (j : Json)
    (r : SimulationResult) (msg : String)
    (env2 : EnvV2) (out2 : OutcomeV2) (raw2 : String) (j2 : Json)
    (r2 : SimulationResultV2)
    (h1 : validate c = Except.ok ()) (h2 : env.scriptExists = true)
    (h3 : env.launch = Except.ok out) (h4 : out.exitSuccess = true)
    (h5 : out.stdoutParse = Except.ok j)
    (h6 : decodeSimulationResult j = Except.ok r)
    (h7 : r.error = some msg)
    (g1 : env2.configWrite = Except.ok ())
    (g2 : env2.catalogWrite = Except.ok ())
    (g3 : env2.launch = Except.ok out2) (g4 : out2.exitSuccess = true)
    (g5 : env2.outputRead = Except.ok raw2)
    (g6 : env2.outputParse = Except.ok j2)
    (g7 : decodeSimulationResultV2 j2 = Except.ok r2) :
    (run_simulation c cat env).result = Except.error msg ∧
    (run_simulation_filerelay c cat env2).result = Except.ok r2 := by
  unfold run_simulation run_simulation_filerelay
  simp [h1, h2, h3, h4, h5, h6, h7, g1, g2, g3, g4, g5, g6, g7]

/-- Witness for `embedded_error_message_surfaced`: the same reply with the
embedded message `"engine boom"` becomes the inline variant's error but the
file-relay variant's success value. -/
theorem embedded_error_message_surfaced_witness :
    (run_simulation goodConfig [] envErrorReply).result =
      Except.error "engine boom" ∧
    (run_simulation_filerelay goodConfig [] envV2ErrorReply).result =
      Except.ok ⟨[], "failed", some "engine boom"⟩ :=
  embedded_error_message_surfaced goodConfig [] envErrorReply outErrorReply
    errorReply ⟨[], "failed", some "engine boom"⟩ "engine boom"
    envV2ErrorReply ⟨true, ""⟩ "raw" errorReply
    ⟨[], "failed", some "engine boom"⟩
    rfl rfl rfl rfl rfl rfl rfl rfl rfl rfl rfl rfl rfl rfl

/-- C6: refuted intent, confirmed defect — the file-relay variant derives
all three temporary artifact paths from fixed well-known names, so any two
invocations sharing a temp directory compute identical paths and collide. -/
theorem filerelay_paths_fixed (e1 e2 : EnvV2) (h : e1.tempDir = e2.tempDir) :
    configPath e1 = configPath e2 ∧
    catalogPath e1 = catalogPath e2 ∧
    outputPath e1 = outputPath e2 ∧
    configPath e1 = e1.tempDir ++ "/ledgerflow_config.json" ∧
    catalogPath e1 = e1.tempDir ++ "/ledgerflow_catalog.json" ∧
    outputPath e1 = e1.tempDir ++ "/ledgerflow_output.json" := by
  unfold configPath catalogPath outputPath
  simp [h]

/-- Witness for `filerelay_paths_fixed`: two different invocations (one
where everything succeeds, one where the script is missing) collide on all
three artifact paths. -/
theorem filerelay_paths_fixed_witness :
    configPath envEngineRuns = configPath envMissingScript ∧
    catalogPath envEngineRuns = catalogPath envMissingScript ∧
    outputPath envEngineRuns = outputPath envMissingScript ∧
    configPath envEngineRuns =
      envEngineRuns.tempDir ++ "/ledgerflow_config.json" ∧
    catalogPath envEngineRuns =
      envEngineRuns.tempDir ++ "/ledgerflow_catalog.json" ∧
    outputPath envEngineRuns =
      envEngineRuns.tempDir ++ "/ledgerflow_output.json" :=
  filerelay_paths_fixed envEngineRuns envMissingScript rfl

/-- C7: refuted on the file-relay variant — on the error path (here: the
engine exits non-zero after both input artifacts were written), the code
returns without removing any temporary artifact: cleanup runs only on the
all-success path, so the artifacts outlive the invocation. -/
theorem filerelay_no_cleanup_on_error (c : SimulationConfig)
    (cat : List CatalogItem) (env : EnvV2) (out : OutcomeV2)
    (g1 : env.configWrite = Except.ok ())
    (g2 : env.catalogWrite = Except.ok ())
    (g3 : env.launch = Except.ok out) (g4 : out.exitSuccess = false) :
    (run_simulation_filerelay c cat env).trace.wroteConfig = true ∧
    (run_simulation_filerelay c cat env).trace.wroteCatalog = true ∧
    (run_simulation_filerelay c cat env).trace.removedConfig = false ∧
    (run_simulation_filerelay c cat env).trace.removedCatalog = false ∧
    (run_simulation_filerelay c cat env).trace.removedOutput = false := by
  unfold run_simulation_filerelay
  simp [g1, g2, g3, g4]

/-- Witness for `filerelay_no_cleanup_on_error`. -/
theorem filerelay_no_cleanup_on_error_witness :
    (run_simulation_filerelay goodConfig [] envV2fail).trace.wroteConfig
      = true ∧
    (run_simulation_filerelay goodConfig [] envV2fail).trace.wroteCatalog
      = true ∧
    (run_simulation_filerelay goodConfig [] envV2fail).trace.removedConfig
      = false ∧
    (run_simulation_filerelay goodConfig [] envV2fail).trace.removedCatalog
      = false ∧
    (run_simulation_filerelay goodConfig [] envV2fail).trace.removedOutput
      = false :=
  filerelay_no_cleanup_on_error goodConfig [] envV2fail outV2fail
    rfl rfl rfl rfl

/-- The Dialect A rendering of a logical invoice line: fields
`name`/`quantity`, tax as a per-line absolute amount. -/
def dialectALine (n : String) (q : Int) (r a t : ℚ) : Json :=
  Json.obj [("name", Json.str n), ("quantity", Json.num (q : ℚ)),
            ("rate", Json.num r), ("amount", Json.num a),
            ("tax", Json.num t)]

/-- The Dialect B rendering of the same logical invoice line: fields
`item`/`qty`/`amount`, no per-line tax. -/
def dialectBLine (n : String) (q : Int) (r a : ℚ) : Json :=
  Json.obj [("item", Json.str n), ("qty", Json.num (q : ℚ)),
            ("rate", Json.num r), ("amount", Json.num a)]

/-- C8 counterexample: decoding the Dialect A and Dialect B renderings of
the same logical line (Widget, 2 units, rate 25, amount 50, tax 5) yields
two different `InvoiceItem` values — the struct keeps both alias fields and
performs no canonical resolution. -/
theorem dialect_decodes_not_identical :
    decodeInvoiceItem (dialectALine "Widget" 2 25 50 5) =
      Except.ok ⟨"Widget", "", 2, 0, 25, 50, none, some 5, none⟩ ∧
    decodeInvoiceItem (dialectBLine "Widget" 2 25 50) =
      Except.ok ⟨"", "Widget", 0, 2, 25, 50, none, none, none⟩ ∧
    (⟨"Widget", "", 2, 0, 25, 50, none, some 5, none⟩ : InvoiceItem) ≠
      ⟨"", "Widget", 0, 2, 25, 50, none, none, none⟩ :=
  ⟨rfl, rfl, by decide⟩

/-- C8 (amended): both dialect renderings of one logical line decode
without error and losslessly, but each into its own alias fields — Dialect
A fills `name`/`quantity` (and per-line `tax`), Dialect B fills
`item`/`qty`, with the respective other alias left at its serde default —
so the two decodes agree on `rate`/`amount` while no single canonical field
per concept is produced. -/
theorem dialect_fields_preserved_not_unified (n : String) (q : Int)
    (r a t : ℚ) (hq1 : -(2 ^ 31) ≤ q) (hq2 : q < 2 ^ 31) :
    decodeInvoiceItem (dialectALine n q r a t) =
      Except.ok ⟨n, "", q, 0, r, a, none, some t, none⟩ ∧
    decodeInvoiceItem (dialectBLine n q r a) =
      Except.ok ⟨"", n, 0, q, r, a, none, none, none⟩ := by
  have hd : decodeI32 (Json.num (q : ℚ)) = Except.ok q := by
    simp only [decodeI32, Rat.num_intCast, Rat.den_intCast]
    rw [if_pos ⟨trivial, hq1, hq2⟩]
  unfold decodeInvoiceItem dialectALine dialectBLine
  simp [defField, reqField, optField, List.lookup, decodeString,
        decodeF64, Except.map, hd]
  exact ⟨rfl, rfl⟩

/-- Witness for `dialect_fields_preserved_not_unified`. -/
theorem dialect_fields_preserved_not_unified_witness :
    decodeInvoiceItem (dialectALine "Widget" 2 25 50 5) =
      Except.ok ⟨"Widget", "", 2, 0, 25, 50, none, some 5, none⟩ ∧
    decodeInvoiceItem (dialectBLine "Widget" 2 25 50) =
      Except.ok ⟨"", "Widget", 0, 2, 25, 50, none, none, none⟩ :=
  dialect_fields_preserved_not_unified "Widget" 2 25 50 5
    (by decide) (by decide)

/-- The invoice-line object of the spec's §8 example reply. -/
def widgetLine : Json :=
  Json.obj [("item", Json.str "Widget"), ("qty", Json.num 2),
            ("rate", Json.num 25), ("amount", Json.num 50)]

/-- The spec's §8 example reply
`{"status":"success","invoices":[{"item":"Widget","qty":2,"rate":25.0,"amount":50.0}]}`. -/
def exampleReply : Json :=
  Json.obj [("status", Json.str "success"),
            ("invoices", Json.arr [widgetLine])]

/-- Inline-variant environment delivering the spec's §8 example reply. -/
def envExampleReply : EnvV1 :=
  ⟨true, Except.ok ⟨true, "raw", Except.ok exampleReply, ""⟩⟩

/-- C9 counterexample: the spec's §8 example reply does not decode at all —
entries of `invoices` must be full `Invoice` objects, and the example's
line object lacks the required `invoice_type` (and the other required
invoice fields), so the operation reports a parse error instead of a
canonical line. -/
theorem example_reply_fails_to_decode :
    decodeSimulationResult exampleReply =
      Except.error "missing field invoice_type" ∧
    (run_simulation goodConfig [] envExampleReply).result =
      Except.error ("Failed to parse engine output: " ++
        "missing field invoice_type" ++ ". Raw: " ++ "raw") :=
  ⟨rfl, rfl⟩

/-- C9 (amended): at the invoice-line level, the missing defaulted alias
fields (`name`, `quantity`) decode to the zero values `""` and `0` and the
missing optional fields (`sku`, `tax`, `total`) to `none`, without error:
the example line object decodes to an `InvoiceItem` carrying `item`
"Widget", `qty` 2, `rate` 25, `amount` 50 — with `name` `""`, `quantity`
`0` and `tax` `none` rather than a unified name/quantity/tax-0 line. -/
theorem widget_line_decodes_with_defaults :
    decodeInvoiceItem widgetLine =
      Except.ok ⟨"", "Widget", 0, 2, 25, 50, none, none, none⟩ :=
  rfl

/-- C10: in the inline-argument variant every success value of
`run_simulation` has `error = none`: a decoded reply whose `error` field is
`Some` is always converted into the operation's error, so a caller
receiving `Ok` never observes an embedded error message. -/
theorem ok_result_has_no_error (c : SimulationConfig)
    (cat : List CatalogItem) (env : EnvV1) (r : SimulationResult)
    (h : (run_simulation c cat env).result = Except.ok r) :
    r.error = none := by
  unfold run_simulation at h
  cases hv : validate c with
  | error e => simp [hv] at h
  | ok u =>
    simp only [hv] at h
    by_cases hs : env.scriptExists = false
    · simp [hs] at h
    · simp only [hs, if_false] at h
      cases hl : env.launch with
      | error e => simp [hl] at h
      | ok out =>
        simp only [hl] at h
        by_cases he : out.exitSuccess = false
        · simp [he] at h
        · simp only [he, if_false] at h
          cases hp : out.stdoutParse with
          | error e => simp [hp] at h
          | ok j =>
            simp only [hp] at h
            cases hd : decodeSimulationResult j with
            | error e => simp [hd] at h
            | ok res =>
              simp only [hd] at h
              cases hr : res.error with
              | some msg => simp [hr] at h
              | none =>
                simp only [hr] at h
                simp at h
                rw [← h, hr]

/-- Inline-variant environment: successful run with a successful reply. -/
def envSuccess : EnvV1 :=
  ⟨true, Except.ok ⟨true, "raw", Except.ok successReplyV2, ""⟩⟩

/-- Witness for `ok_result_has_no_error`. -/
theorem ok_result_has_no_error_witness :
    (run_simulation goodConfig [] envSuccess).result =
      Except.ok ⟨[], "success", none⟩ ∧
    (⟨[], "success", none⟩ : SimulationResult).error = none :=
  ⟨rfl, ok_result_has_no_error goodConfig [] envSuccess
    ⟨[], "success", none⟩ rfl⟩
